import Mathlib

/-!
Verification of the weather-app front-end client layer (API client,
session store, geolocation formatting, export formatters).

The TypeScript source is shallowly embedded: JS numbers are modelled as
rationals (every numeric value exercised by the claims is an exactly
representable double and all arithmetic on it is exact), the network is an
explicit oracle passed to each method, the session store is explicit state,
and template-literal string building is ordinary string concatenation.

Rational arithmetic inside the executable definitions is phrased through
`Rat.divInt` and integer arithmetic on `num`/`den` so that every definition
evaluates by kernel reduction; bridge lemmas (`qadd_eq_add`, `qdivNat_eq_div`,
`qHalfUp_eq_floor`) prove these forms equal to the ordinary field operations
on `ℚ`.
-/

namespace WeatherApp

/-! ### Exact rational arithmetic in kernel-reducible form -/

/-- Rational addition (`a + b`), written through `Rat.divInt` so it reduces. -/
def qadd (a b : ℚ) : ℚ := Rat.divInt (a.num * b.den + b.num * a.den) (a.den * b.den)

/-- Rational division by a natural number (`q / n`); total, used only with
`n ≠ 0` (the `n = 0` case is guarded where JS would produce `NaN`). -/
def qdivNat (q : ℚ) (n : Nat) : ℚ := Rat.divInt q.num (q.den * n)

/-- Computation of `⌊q * p + 1/2⌋` — rounding half toward +infinity after scaling by `p`,
computed purely on numerator and denominator. -/
def qHalfUp (q : ℚ) (p : Nat) : ℤ := (2 * q.num * p + q.den) / (2 * (q.den : ℤ))

/-- Negation (`Math.abs` helper). -/
def qAbs (q : ℚ) : ℚ := if q.num < 0 then Rat.neg q else q

/-! ### Decimal rendering (JS `Number.prototype.toFixed` / `String(n)`) -/

/-- Digit characters of a natural number; fuel-driven so it is structurally
recursive (fuel `n + 1` always suffices). -/
def natToStrAux : Nat → Nat → String
  | 0, _ => ""
  | fuel + 1, n =>
    if n < 10 then String.singleton (Nat.digitChar n)
    else natToStrAux fuel (n / 10) ++ String.singleton (Nat.digitChar (n % 10))

def natToStr (n : Nat) : String := natToStrAux (n + 1) n

def intToStr (n : Int) : String :=
  (if n < 0 then "-" else "") ++ natToStr n.natAbs

/-- Left-pad with zeros to width `d`. -/
def padZeros (d : Nat) (s : String) : String :=
  String.mk (List.replicate (d - s.length) '0') ++ s

/-- Model of `q.toFixed(d)`: the ECMAScript rule picks the integer `n` minimising
`|n / 10^d - q|`, the larger one on ties — that is `n = ⌊q * 10^d + 1/2⌋`
(see `qHalfUp_eq_floor`) — and renders `n` with exactly `d` fractional
digits. -/
def toFixedQ (d : Nat) (q : ℚ) : String :=
  let n : ℤ := qHalfUp q (10 ^ d)
  let sign := if n < 0 then "-" else ""
  let m : Nat := n.natAbs
  if d = 0 then sign ++ natToStr m
  else sign ++ natToStr (m / 10 ^ d) ++ "." ++ padZeros d (natToStr (m % 10 ^ d))

/-- Least `k ≤ fuel` with `den ∣ p * 10^k` (called with `p = 1`). -/
def decExpAux : Nat → Nat → Nat → Nat
  | 0, _, _ => 0
  | fuel + 1, p, den => if p % den = 0 then 0 else 1 + decExpAux fuel (p * 10) den

/-- JS `String(n)` for a rational with finite decimal expansion: shortest
decimal form, no trailing zeros, no decimal point for integers. -/
def qToStr (q : ℚ) : String :=
  let k := decExpAux 64 1 q.den
  if k = 0 then intToStr q.num
  else
    let m : Nat := q.num.natAbs * 10 ^ k / q.den
    (if q.num < 0 then "-" else "") ++
      natToStr (m / 10 ^ k) ++ "." ++ padZeros k (natToStr (m % 10 ^ k))

/-! ### Substring search (executable, used to state containment facts) -/

def listStarts : List Char → List Char → Bool
  | [], _ => true
  | _ :: _, [] => false
  | p :: ps, c :: cs => p == c && listStarts ps cs

def hasSub (pat : List Char) : List Char → Bool
  | [] => listStarts pat []
  | c :: cs => listStarts pat (c :: cs) || hasSub pat cs

def strHasSub (pat s : String) : Bool := hasSub pat.data s.data

/-! ### Data model (the TypeScript interfaces of the API client) -/

structure Location where
  name : String
  country : String
  latitude : ℚ
  longitude : ℚ
  timezone : String
  admin1 : Option String
deriving DecidableEq

structure CurrentWeather where
  temperature : ℚ
  feels_like : ℚ
  humidity : ℚ
  precipitation : ℚ
  rain : ℚ
  weather_code : ℚ
  weather_description : String
  cloud_cover : ℚ
  pressure : ℚ
  surface_pressure : ℚ
  wind_speed : ℚ
  wind_direction : ℚ
  wind_gusts : ℚ
  time : String
  timezone : String
deriving DecidableEq

structure DailyForecast where
  date : String
  weather_code : ℚ
  weather_description : String
  temperature_max : ℚ
  temperature_min : ℚ
  feels_like_max : ℚ
  feels_like_min : ℚ
  precipitation : ℚ
  rain : ℚ
  precipitation_probability : ℚ
  wind_speed_max : ℚ
  wind_gusts_max : ℚ
  wind_direction : ℚ
  sunrise : String
  sunset : String
  uv_index_max : ℚ
deriving DecidableEq

structure HourlyForecast where
  time : String
  temperature : ℚ
  feels_like : ℚ
  humidity : ℚ
  precipitation_probability : ℚ
  precipitation : ℚ
  weather_code : ℚ
  weather_description : String
  wind_speed : ℚ
  wind_direction : ℚ
deriving DecidableEq

structure CompleteWeatherData where
  location : Location
  current : CurrentWeather
  forecast : List DailyForecast
deriving DecidableEq

/-- Return type of `getForecast` (`{ forecast, timezone }`). -/
structure ForecastResponse where
  forecast : List DailyForecast
  timezone : String
deriving DecidableEq

/-- Return type of `getHourlyForecast` (`{ hourly, timezone }`). -/
structure HourlyResponse where
  hourly : List HourlyForecast
  timezone : String
deriving DecidableEq

structure WeatherDataItem where
  date : String
  temperature_max : ℚ
  temperature_min : ℚ
  temperature_mean : Option ℚ
  feels_like_max : ℚ
  feels_like_min : ℚ
  precipitation : ℚ
  rain : ℚ
  weather_code : ℚ
  weather_description : String
  wind_speed_max : ℚ
  wind_direction : ℚ
deriving DecidableEq

structure WeatherRequest where
  id : ℚ
  location_name : String
  country : String
  latitude : ℚ
  longitude : ℚ
  timezone : String
  start_date : String
  end_date : String
  weather_data : List WeatherDataItem
  notes : String
  created_at : String
  updated_at : String
deriving DecidableEq

structure WeatherRequestListItem where
  id : ℚ
  location_name : String
  country : String
  start_date : String
  end_date : String
  notes : String
  created_at : String
  updated_at : String
deriving DecidableEq

structure CreateWeatherRequestPayload where
  location_name : String
  start_date : String
  end_date : String
  notes : Option String
  latitude : Option ℚ
  longitude : Option ℚ
  country : Option String
  timezone : Option String
deriving DecidableEq

structure UpdateWeatherRequestPayload where
  location_name : Option String
  start_date : Option String
  end_date : Option String
  notes : Option String
  latitude : Option ℚ
  longitude : Option ℚ
  country : Option String
  timezone : Option String
deriving DecidableEq

structure LocationValidation where
  valid : Bool
  error : Option String
  best_match : Option Location
  suggestions : Option (List Location)
deriving DecidableEq

structure DateRangeValidation where
  valid : Bool
  error : Option String
deriving DecidableEq

structure User where
  id : ℚ
  username : String
  first_name : String
  last_name : String
deriving DecidableEq

structure SignupPayload where
  username : String
  password : String
  first_name : String
  last_name : String
deriving DecidableEq

structure LoginPayload where
  username : String
  password : String
deriving DecidableEq

structure AuthResponse where
  token : String
  user : User
deriving DecidableEq

/-- Return type of `deleteWeatherRequest` (`{ success, message }`). -/
structure DeleteResponse where
  success : Bool
  message : String
deriving DecidableEq

/-! ### The client's environment, state and network oracle

`WeatherAPIClient` holds `baseUrl` (irrelevant to the claims) and a private
`token`; `localStorage` under the fixed key `"auth_token"` is the durable
slot, touched only when `window` exists. A fetch either rejects (network
failure) or resolves with a `Response`; `response.json()` either fails to
parse or yields a value, whose `.message` property is recorded separately
because `handleResponse` reads the error-path body as `ApiError`. -/

structure Env where
  hasWindow : Bool
deriving DecidableEq

structure ClientState where
  token : Option String
  storage : Option String
deriving DecidableEq

/-- A successfully-parsed JSON body: the value the caller's type ascription
reads it as, plus its `message` property (`none` = absent/undefined). -/
structure JsVal (α : Type) where
  asT : α
  message : Option String
deriving DecidableEq

/-- A resolved HTTP response: `ok` is the 2xx flag; `body` is the outcome of
`await response.json()` (`Except.error` = the body failed to parse as JSON). -/
structure HttpResponse (α : Type) where
  ok : Bool
  body : Except String (JsVal α)

/-- Outcome of a single `fetch`: the promise rejects (network/transport
failure) or resolves with a response. -/
inductive NetResult (α : Type) where
  | reject (e : String)
  | resolve (r : HttpResponse α)

/-- The single error value a method can throw. -/
inductive ApiErr where
  | network (e : String)
  | http (message : String)
  | parse (e : String)
deriving DecidableEq

/-- Model of `setToken`: update the in-memory value; when `window` exists, write the
`auth_token` key for a truthy token (`if (token)` — the empty string is
falsy in JS) and remove it otherwise. -/
def setToken (env : Env) (s : ClientState) (token : Option String) : ClientState :=
  let s' := { s with token := token }
  if env.hasWindow then
    match token with
    | some t => if t ≠ "" then { s' with storage := some t } else { s' with storage := none }
    | none => { s' with storage := none }
  else s'

def getToken (s : ClientState) : Option String := s.token

/-- Model of `isAuthenticated()`: `this.token !== null`, a purely local check. -/
def isAuthenticated (s : ClientState) : Bool := s.token ≠ none

/-- Model of `getAuthHeaders()`: content type plus `Authorization: Bearer <token>`
when the held token is truthy (`if (this.token)` — both `null` and the empty
string are falsy in JS, so neither adds the header). -/
def getAuthHeaders (s : ClientState) : List (String × String) :=
  [("Content-Type", "application/json")] ++
    (match s.token with
     | some t => if t ≠ "" then [("Authorization", "Bearer " ++ t)] else []
     | none => [])

/-- Semantics of JS `error.message || "An error occurred"`: fall back when the property
is absent or the empty string (both falsy). -/
def messageOrDefault (m : Option String) (d : String) : String :=
  match m with
  | some s => if s = "" then d else s
  | none => d

/-- Model of `handleResponse`: non-2xx → read the body as `{error, message}` and throw
an error carrying `message` (generic fallback when falsy); a body that fails
to parse as JSON makes `await response.json()` reject, which propagates on
both paths. -/
def handleResponse {α : Type} (response : HttpResponse α) : Except ApiErr α :=
  if response.ok then
    match response.body with
    | .error e => .error (.parse e)
    | .ok v => .ok v.asT
  else
    match response.body with
    | .error e => .error (.parse e)
    | .ok v => .error (.http (messageOrDefault v.message "An error occurred"))

/-- One fetch followed by `handleResponse` — the shape shared by every
response-parsing method of the client. -/
def fetchHandled {α : Type} (net : NetResult α) : Except ApiErr α :=
  match net with
  | .reject e => .error (.network e)
  | .resolve r => handleResponse r

/-! ### API Client methods

Each method takes its source arguments (query parameters only build the URL,
which no claim inspects) plus the outcome of its fetch. Methods that touch
the session store also take and return the client state. -/

def searchLocation (query : String) (net : NetResult (List Location)) :
    Except ApiErr (List Location) := fetchHandled net

def getCurrentWeather (lat lon : ℚ) (net : NetResult CurrentWeather) :
    Except ApiErr CurrentWeather := fetchHandled net

def getForecast (lat lon : ℚ) (days : ℚ) (net : NetResult ForecastResponse) :
    Except ApiErr ForecastResponse := fetchHandled net

def getHourlyForecast (lat lon : ℚ) (hours : ℚ) (net : NetResult HourlyResponse) :
    Except ApiErr HourlyResponse := fetchHandled net

def getCompleteWeather (query : String) (days : ℚ) (net : NetResult CompleteWeatherData) :
    Except ApiErr CompleteWeatherData := fetchHandled net

/-- Return type of `getWeatherByCoordinates` (`{ current, forecast }`). -/
structure CoordinatesWeather where
  current : CurrentWeather
  forecast : List DailyForecast
deriving DecidableEq

/-- Model of `getWeatherByCoordinates`: `Promise.all` over the current-weather and
forecast legs; the combined promise resolves only when both legs do, and
rejects as soon as either leg rejects (no partial value is ever produced);
on success the result pairs `current` with `forecastData.forecast`. -/
def getWeatherByCoordinates (lat lon : ℚ) (days : ℚ)
    (netCurrent : NetResult CurrentWeather) (netForecast : NetResult ForecastResponse) :
    Except ApiErr CoordinatesWeather :=
  match getCurrentWeather lat lon netCurrent, getForecast lat lon days netForecast with
  | .ok current, .ok forecastData => .ok ⟨current, forecastData.forecast⟩
  | .error e, _ => .error e
  | _, .error e => .error e

/-- Model of `signup`: POST the payload; on a handled success store the returned token
via `setToken` and return the full response; any failure propagates with the
state untouched. -/
def signup (env : Env) (s : ClientState) (payload : SignupPayload)
    (net : NetResult AuthResponse) : Except ApiErr AuthResponse × ClientState :=
  match fetchHandled net with
  | .error e => (.error e, s)
  | .ok data => (.ok data, setToken env s (some data.token))

/-- Model of `login`: same contract as `signup`. -/
def login (env : Env) (s : ClientState) (payload : LoginPayload)
    (net : NetResult AuthResponse) : Except ApiErr AuthResponse × ClientState :=
  match fetchHandled net with
  | .error e => (.error e, s)
  | .ok data => (.ok data, setToken env s (some data.token))

/-- A request as issued by `fetch` (method, path, headers). -/
structure HttpRequest where
  method : String
  path : String
  headers : List (String × String)
deriving DecidableEq

/-- Model of `logout`: when the held token is truthy (`if (this.token)` — the
empty string is falsy), `await fetch(POST /auth/logout)` with the auth
headers — the response object is discarded without inspection and is never
given to `handleResponse`, but a *rejected* fetch propagates (there is no
try/catch), skipping the `setToken(null)` that follows; with a null or empty
token no request is issued at all. Returns (outcome, state, the request
issued if any). -/
def logout (env : Env) (s : ClientState) (net : NetResult Unit) :
    Except ApiErr Unit × ClientState × Option HttpRequest :=
  match s.token with
  | some t =>
    if t ≠ "" then
      match net with
      | .reject e => (.error (.network e), s, some ⟨"POST", "/auth/logout", getAuthHeaders s⟩)
      | .resolve _ =>
        (.ok (), setToken env s none, some ⟨"POST", "/auth/logout", getAuthHeaders s⟩)
    else (.ok (), setToken env s none, none)
  | none => (.ok (), setToken env s none, none)

def getCurrentUser (s : ClientState) (net : NetResult User) : Except ApiErr User :=
  fetchHandled net

def validateLocation (locationName : String) (net : NetResult LocationValidation) :
    Except ApiErr LocationValidation := fetchHandled net

def validateDateRange (startDate endDate : String) (net : NetResult DateRangeValidation) :
    Except ApiErr DateRangeValidation := fetchHandled net

def createWeatherRequest (s : ClientState) (payload : CreateWeatherRequestPayload)
    (net : NetResult WeatherRequest) : Except ApiErr WeatherRequest := fetchHandled net

def getWeatherRequests (s : ClientState) (location : Option String) (limit offset : ℚ)
    (net : NetResult (List WeatherRequestListItem)) :
    Except ApiErr (List WeatherRequestListItem) := fetchHandled net

def getWeatherRequestById (s : ClientState) (id : ℚ) (net : NetResult WeatherRequest) :
    Except ApiErr WeatherRequest := fetchHandled net

def updateWeatherRequest (s : ClientState) (id : ℚ) (payload : UpdateWeatherRequestPayload)
    (net : NetResult WeatherRequest) : Except ApiErr WeatherRequest := fetchHandled net

def deleteWeatherRequest (s : ClientState) (id : ℚ) (net : NetResult DeleteResponse) :
    Except ApiErr DeleteResponse := fetchHandled net

/-! ### Geolocation: `formatCoordinates` -/

/-- Model of `formatCoordinates(lat, lon)`:
`${Math.abs(lat).toFixed(4)}°${lat >= 0 ? "N" : "S"}, ...` — the sign tests
are on the numerator, which has the sign of the value. -/
def formatCoordinates (lat lon : ℚ) : String :=
  let latDir := if 0 ≤ lat.num then "N" else "S"
  let lonDir := if 0 ≤ lon.num then "E" else "W"
  toFixedQ 4 (qAbs lat) ++ "°" ++ latDir ++ ", " ++ toFixedQ 4 (qAbs lon) ++ "°" ++ lonDir

/-! ### Export formatters

`exportAsCSV` / `exportAsMarkdown` / `exportAsXML` build a text and hand it
to `downloadFile`; the embedded functions below are those texts.
`exportAsMarkdown` interpolates `new Date().toLocaleString()`, passed here as
the explicit `now` argument. -/

/-- The apostrophe character. -/
def aposChar : Char := Char.ofNat 39

/-- One global single-character replacement, the semantics of
`.replace(/c/g, r)` for a one-character pattern. -/
def replChar (c : Char) (r : List Char) : List Char → List Char
  | [] => []
  | a :: as => (if a = c then r else [a]) ++ replChar c r as

/-- Model of `escapeXml`: the five chained global replacements, ampersand first. -/
def escapeXml (str : String) : String :=
  String.mk (replChar aposChar "&apos;".data
    (replChar '"' "&quot;".data
      (replChar '>' "&gt;".data
        (replChar '<' "&lt;".data
          (replChar '&' "&amp;".data str.data)))))

/-- The intended single-pass reading of `escapeXml`: each metacharacter maps
to its entity, every other character to itself. -/
def escChar (c : Char) : List Char :=
  if c = '&' then "&amp;".data
  else if c = '<' then "&lt;".data
  else if c = '>' then "&gt;".data
  else if c = '"' then "&quot;".data
  else if c = aposChar then "&apos;".data
  else [c]

/-- Semantics of `reduce((sum, d) => sum + f(d), 0)`. -/
def sumBy (l : List WeatherDataItem) (f : WeatherDataItem → ℚ) : ℚ :=
  l.foldl (fun sum d => qadd sum (f d)) 0

/-- Semantics of `(sum / n).toFixed(1)` where `n` is the length of the list the sum ranges
over: with `n = 0` the JS sum is `0` and `0 / 0` is `NaN`, whose
`toFixed(1)` is the string `"NaN"`. -/
def meanToFixed1 (sum : ℚ) (n : Nat) : String :=
  if n = 0 then "NaN" else toFixedQ 1 (qdivNat sum n)

/-- JS truthiness of an optional number (`undefined` and `0` are falsy). -/
def jsTruthyNum : Option ℚ → Bool
  | some q => q.num ≠ 0
  | none => false

def csvHeaders : List String :=
  ["Date", "Temperature Max (°C)", "Temperature Min (°C)", "Temperature Mean (°C)",
   "Feels Like Max (°C)", "Feels Like Min (°C)", "Precipitation (mm)", "Rain (mm)",
   "Weather Code", "Weather Description", "Wind Speed Max (km/h)", "Wind Direction (°)"]

/-- One CSV data row (`row.join(",")` stringifies the numbers; the weather
description is wrapped in double quotes; `temperature_mean || ""`). -/
def csvRow (day : WeatherDataItem) : List String :=
  [day.date, qToStr day.temperature_max, qToStr day.temperature_min,
   (if jsTruthyNum day.temperature_mean then qToStr (day.temperature_mean.getD 0) else ""),
   qToStr day.feels_like_max, qToStr day.feels_like_min, qToStr day.precipitation,
   qToStr day.rain, qToStr day.weather_code,
   "\"" ++ day.weather_description ++ "\"",
   qToStr day.wind_speed_max, qToStr day.wind_direction]

/-- The CSV text: commented metadata lines (the array's trailing `""` — and
the notes line when notes are empty — are dropped by `.filter(Boolean)`, so
no separator survives between the metadata and the header row), then the
header row, then one row per day. -/
def exportAsCSVText (request : WeatherRequest) : String :=
  let metadata := String.intercalate "\n"
    (([
      "# Weather Data for " ++ request.location_name ++ ", " ++ request.country,
      "# Date Range: " ++ request.start_date ++ " to " ++ request.end_date,
      "# Location: " ++ qToStr request.latitude ++ ", " ++ qToStr request.longitude,
      "# Timezone: " ++ request.timezone,
      (if request.notes ≠ "" then "# Notes: " ++ request.notes else ""),
      ""]).filter (fun l => l ≠ ""))
  metadata ++ String.intercalate "," csvHeaders ++ "\n" ++
    String.intercalate "\n" (request.weather_data.map (fun row => String.intercalate "," (csvRow row)))

/-- One Markdown table row. -/
def markdownRow (day : WeatherDataItem) : String :=
  "| " ++ day.date ++ " | " ++ qToStr day.temperature_max ++ "°C | " ++
    qToStr day.temperature_min ++ "°C | " ++
    (if jsTruthyNum day.temperature_mean then qToStr (day.temperature_mean.getD 0) ++ "°C"
     else "N/A") ++
    " | " ++ qToStr day.feels_like_max ++ "°C | " ++ qToStr day.feels_like_min ++ "°C | " ++
    qToStr day.precipitation ++ "mm | " ++ qToStr day.rain ++ "mm | " ++
    day.weather_description ++ " | " ++ qToStr day.wind_speed_max ++ "km/h | " ++
    qToStr day.wind_direction ++ "° |"

/-- The Markdown report text of `exportAsMarkdown`. -/
def exportAsMarkdownText (now : String) (request : WeatherRequest) : String :=
  "# Weather Data Report\n\n" ++
  "## Location Information\n" ++
  "- **Location:** " ++ request.location_name ++ ", " ++ request.country ++ "\n" ++
  "- **Coordinates:** " ++ qToStr request.latitude ++ ", " ++ qToStr request.longitude ++ "\n" ++
  "- **Timezone:** " ++ request.timezone ++ "\n\n" ++
  "## Date Range\n" ++
  "- **Start Date:** " ++ request.start_date ++ "\n" ++
  "- **End Date:** " ++ request.end_date ++ "\n" ++
  "- **Duration:** " ++ natToStr request.weather_data.length ++ " days\n\n" ++
  (if request.notes ≠ "" then "## Notes\n" ++ request.notes ++ "\n" else "") ++
  "\n## Weather Data\n\n" ++
  "| Date | Temp Max | Temp Min | Temp Mean | Feels Like Max | Feels Like Min | Precipitation | Rain | Weather | Wind Speed | Wind Dir |\n" ++
  "|------|----------|----------|-----------|----------------|----------------|---------------|------|---------|------------|----------|\n" ++
  String.intercalate "\n" (request.weather_data.map markdownRow) ++
  "\n\n## Statistics\n\n" ++
  "- **Average Max Temperature:** " ++
    meanToFixed1 (sumBy request.weather_data (·.temperature_max)) request.weather_data.length ++
    "°C\n" ++
  "- **Average Min Temperature:** " ++
    meanToFixed1 (sumBy request.weather_data (·.temperature_min)) request.weather_data.length ++
    "°C\n" ++
  "- **Total Precipitation:** " ++
    toFixedQ 1 (sumBy request.weather_data (·.precipitation)) ++ "mm\n" ++
  "- **Total Rain:** " ++
    toFixedQ 1 (sumBy request.weather_data (·.rain)) ++ "mm\n" ++
  "- **Average Wind Speed:** " ++
    meanToFixed1 (sumBy request.weather_data (·.wind_speed_max)) request.weather_data.length ++
    "km/h\n\n" ++
  "---\n" ++
  "*Generated on " ++ now ++ "*\n" ++
  "*Request ID: " ++ qToStr request.id ++ "*\n"

/-- One `<day>` element of the XML export (`temperature_mean` is interpolated
only when truthy, leaving the line's indentation behind otherwise). -/
def xmlDayBlock (day : WeatherDataItem) : String :=
  "    <day>\n" ++
  "      <date>" ++ day.date ++ "</date>\n" ++
  "      <temperatureMax>" ++ qToStr day.temperature_max ++ "</temperatureMax>\n" ++
  "      <temperatureMin>" ++ qToStr day.temperature_min ++ "</temperatureMin>\n" ++
  "      " ++
  (if jsTruthyNum day.temperature_mean then
    "<temperatureMean>" ++ qToStr (day.temperature_mean.getD 0) ++ "</temperatureMean>"
   else "") ++ "\n" ++
  "      <feelsLikeMax>" ++ qToStr day.feels_like_max ++ "</feelsLikeMax>\n" ++
  "      <feelsLikeMin>" ++ qToStr day.feels_like_min ++ "</feelsLikeMin>\n" ++
  "      <precipitation>" ++ qToStr day.precipitation ++ "</precipitation>\n" ++
  "      <rain>" ++ qToStr day.rain ++ "</rain>\n" ++
  "      <weatherCode>" ++ qToStr day.weather_code ++ "</weatherCode>\n" ++
  "      <weatherDescription>" ++ escapeXml day.weather_description ++ "</weatherDescription>\n" ++
  "      <windSpeedMax>" ++ qToStr day.wind_speed_max ++ "</windSpeedMax>\n" ++
  "      <windDirection>" ++ qToStr day.wind_direction ++ "</windDirection>\n" ++
  "    </day>"

/-- The XML text of `exportAsXML` (`request.notes || ""` equals
`request.notes` on the string model). -/
def exportAsXMLText (request : WeatherRequest) : String :=
  "<?xml version=\"1.0\" encoding=\"UTF-8\"?>\n" ++
  "<WeatherRequest>\n" ++
  "  <id>" ++ qToStr request.id ++ "</id>\n" ++
  "  <location>\n" ++
  "    <name>" ++ escapeXml request.location_name ++ "</name>\n" ++
  "    <country>" ++ escapeXml request.country ++ "</country>\n" ++
  "    <latitude>" ++ qToStr request.latitude ++ "</latitude>\n" ++
  "    <longitude>" ++ qToStr request.longitude ++ "</longitude>\n" ++
  "    <timezone>" ++ escapeXml request.timezone ++ "</timezone>\n" ++
  "  </location>\n" ++
  "  <dateRange>\n" ++
  "    <startDate>" ++ request.start_date ++ "</startDate>\n" ++
  "    <endDate>" ++ request.end_date ++ "</endDate>\n" ++
  "  </dateRange>\n" ++
  "  <notes>" ++ escapeXml request.notes ++ "</notes>\n" ++
  "  <weatherData>\n" ++
  String.intercalate "\n" (request.weather_data.map xmlDayBlock) ++ "\n" ++
  "  </weatherData>\n" ++
  "  <metadata>\n" ++
  "    <createdAt>" ++ request.created_at ++ "</createdAt>\n" ++
  "    <updatedAt>" ++ request.updated_at ++ "</updatedAt>\n" ++
  "  </metadata>\n" ++
  "</WeatherRequest>"

/-! ### Concrete fixtures used by the claim theorems -/

def envWindow : Env := ⟨true⟩

def emptyClient : ClientState := ⟨none, none⟩

def authedClient : ClientState := ⟨some "tok123", some "tok123"⟩

def sampleUser : User := ⟨7, "ada", "Ada", "Lovelace"⟩

def sampleAuth : AuthResponse := ⟨"tok42", sampleUser⟩

def authOkResponse : HttpResponse AuthResponse := ⟨true, .ok ⟨sampleAuth, none⟩⟩

def sampleSignup : SignupPayload := ⟨"ada", "pw", "Ada", "Lovelace"⟩

def sampleForecastDay : DailyForecast :=
  ⟨"2024-01-01", 1, "Clear", 20, 10, 19, 9, 0, 0, 10, 5, 8, 180, "07:00", "17:00", 3⟩

def forecastOkResponse : HttpResponse ForecastResponse :=
  ⟨true, .ok ⟨⟨[sampleForecastDay], "UTC"⟩, none⟩⟩

/-- A non-2xx response whose body parses as
`{"error":"bad_request","message":"Invalid date range"}`. -/
def invalidDateResponse (α : Type) (v : α) : HttpResponse α :=
  ⟨false, .ok ⟨v, some "Invalid date range"⟩⟩

def sampleDay1 : WeatherDataItem :=
  ⟨"2024-01-01", 20, 10, none, 18, 8, 0, 0, 1, "Clear", 5, 180⟩

def sampleDay2 : WeatherDataItem :=
  ⟨"2024-01-02", 22, 12, none, 19, 9, 2, 1, 61, "Rain", 7, 190⟩

/-- The WeatherRequest of the statistics claim: weather_data =
`[{temperature_max:20, temperature_min:10, precipitation:0, wind_speed_max:5},
  {temperature_max:22, temperature_min:12, precipitation:2, wind_speed_max:7}]`. -/
def statsRequest : WeatherRequest :=
  ⟨1, "Paris", "France", 48, 2, "Europe/Paris", "2024-01-01", "2024-01-02",
   [sampleDay1, sampleDay2], "", "2024-01-03", "2024-01-03"⟩

/-- A WeatherRequest whose weather_data sequence is empty. -/
def emptyRequest : WeatherRequest :=
  ⟨2, "Nowhere", "Atlantis", 0, 0, "UTC", "2024-01-01", "2024-01-01", [], "", "c", "u"⟩

/-- A WeatherRequest whose notes field is `A & B <C>`. -/
def notesRequest : WeatherRequest :=
  ⟨3, "Lyon", "France", 45, 4, "Europe/Paris", "2024-02-01", "2024-02-01", [],
   "A & B <C>", "c", "u"⟩

/-! ### Bridge lemmas: the kernel-reducible arithmetic equals the ℚ operations -/

theorem qadd_eq_add (a b : ℚ) : qadd a b = a + b := by
  rw [qadd]
  conv_rhs => rw [← Rat.num_divInt_den a, ← Rat.num_divInt_den b]
  rw [Rat.divInt_add_divInt _ _ (by exact_mod_cast a.den_nz) (by exact_mod_cast b.den_nz)]

theorem qdivNat_eq_div (q : ℚ) (n : Nat) : qdivNat q n = q / n := by
  rw [qdivNat, Rat.divInt_eq_div]
  push_cast
  rw [← div_div, Rat.num_div_den]

theorem qHalfUp_eq_floor (q : ℚ) (p : Nat) : qHalfUp q p = ⌊q * p + 1 / 2⌋ := by
  have hq0 : (q.den : ℚ) ≠ 0 := by exact_mod_cast q.den_nz
  have hqd := (div_eq_iff hq0).mp (Rat.num_div_den q)
  have hden : ((2 * q.den : ℕ) : ℚ) ≠ 0 := by
    exact_mod_cast Nat.mul_ne_zero (by norm_num) q.den_nz
  have key : q * p + 1 / 2 = ((2 * q.num * (p : ℤ) + (q.den : ℤ) : ℤ) : ℚ) / ((2 * q.den : ℕ) : ℚ) := by
    rw [eq_div_iff hden]
    push_cast
    linear_combination (-2 * (p : ℚ)) * hqd
  rw [key, Rat.floor_intCast_div_natCast]
  simp only [qHalfUp]
  push_cast
  ring_nf

theorem qAbs_eq_abs (q : ℚ) : qAbs q = |q| := by
  rw [qAbs]
  by_cases h : q.num < 0
  · rw [if_pos h, abs_of_neg (Rat.num_neg.mp h)]
    rfl
  · rw [if_neg h, abs_of_nonneg (Rat.num_nonneg.mp (by omega))]

/-! ### Helper lemmas for the XML escaping claim -/

theorem replChar_append (c : Char) (r x y : List Char) :
    replChar c r (x ++ y) = replChar c r x ++ replChar c r y := by
  induction x with
  | nil => rfl
  | cons a as ih => simp [replChar, ih]

theorem replChain_head (a : Char) :
    replChar aposChar "&apos;".data (replChar '"' "&quot;".data (replChar '>' "&gt;".data
      (replChar '<' "&lt;".data (if a = '&' then "&amp;".data else [a])))) = escChar a := by
  by_cases h1 : a = '&'
  · subst h1; decide
  · rw [if_neg h1]
    by_cases h2 : a = '<'
    · subst h2; decide
    · by_cases h3 : a = '>'
      · subst h3; decide
      · by_cases h4 : a = '"'
        · subst h4; decide
        · by_cases h5 : a = aposChar
          · subst h5; decide
          · simp [replChar, escChar, h1, h2, h3, h4, h5]

theorem escapeXml_data (l : List Char) :
    replChar aposChar "&apos;".data (replChar '"' "&quot;".data (replChar '>' "&gt;".data
      (replChar '<' "&lt;".data (replChar '&' "&amp;".data l)))) = l.flatMap escChar := by
  induction l with
  | nil => rfl
  | cons a l ih =>
    have hhead : replChar '&' "&amp;".data (a :: l) =
        (if a = '&' then "&amp;".data else [a]) ++ replChar '&' "&amp;".data l := by
      simp [replChar]
    rw [hhead, replChar_append, replChar_append, replChar_append, replChar_append, ih,
      replChain_head, List.flatMap_cons]

/-! ### The claims -/

set_option maxRecDepth 400000

/-- C1: the spec says `logout()` completes without throwing and clears the
stored token even when the underlying network call fails. The code has no
try/catch around its `await fetch`: evaluated at the failing input (token
held, fetch rejects), logout *does* issue the POST with the current auth
header, but then rejects with the network error and leaves the stored token
in place — `setToken(null)` is never reached. The spec states the intent
three times (§4.1, §7, §8), so this is a slip in the code. -/
theorem c1_logout_throws_on_network_failure :
    logout envWindow authedClient (.reject "NetworkError") =
      (.error (.network "NetworkError"), authedClient,
        some ⟨"POST", "/auth/logout",
          [("Content-Type", "application/json"), ("Authorization", "Bearer tok123")]⟩) ∧
    (logout envWindow authedClient (.reject "NetworkError")).2.1.token = some "tok123" :=
  ⟨rfl, rfl⟩

/-- C2: for every response-parsing method (all of them route through
`handleResponse`; `logout` never parses a response, see C10) a non-2xx
response whose body parses as `{error, message}` yields a single error
carrying exactly `message`; an absent or empty `message` falls back to the
generic string; an error-path body that fails to parse as JSON propagates
that parse failure; and the concrete body
`{"error":"bad_request","message":"Invalid date range"}` makes every
modelled method fail with message exactly `"Invalid date range"`. -/
theorem c2_error_normalization :
    (∀ (α : Type) (r : HttpResponse α) (v : JsVal α) (m : String),
       r.ok = false → r.body = .ok v → v.message = some m → m ≠ "" →
       handleResponse r = .error (.http m)) ∧
    (∀ (α : Type) (r : HttpResponse α) (v : JsVal α),
       r.ok = false → r.body = .ok v → (v.message = none ∨ v.message = some "") →
       handleResponse r = .error (.http "An error occurred")) ∧
    (∀ (α : Type) (r : HttpResponse α) (e : String),
       r.body = .error e → handleResponse r = .error (.parse e)) ∧
    (∀ (q : String) (v : List Location),
       searchLocation q (.resolve (invalidDateResponse _ v)) = .error (.http "Invalid date range")) ∧
    (∀ (lat lon : ℚ) (v : CurrentWeather),
       getCurrentWeather lat lon (.resolve (invalidDateResponse _ v)) = .error (.http "Invalid date range")) ∧
    (∀ (lat lon days : ℚ) (v : ForecastResponse),
       getForecast lat lon days (.resolve (invalidDateResponse _ v)) = .error (.http "Invalid date range")) ∧
    (∀ (lat lon hours : ℚ) (v : HourlyResponse),
       getHourlyForecast lat lon hours (.resolve (invalidDateResponse _ v)) = .error (.http "Invalid date range")) ∧
    (∀ (q : String) (days : ℚ) (v : CompleteWeatherData),
       getCompleteWeather q days (.resolve (invalidDateResponse _ v)) = .error (.http "Invalid date range")) ∧
    (∀ (lat lon days : ℚ) (v : CurrentWeather) (w : ForecastResponse),
       getWeatherByCoordinates lat lon days (.resolve (invalidDateResponse _ v))
         (.resolve (invalidDateResponse _ w)) = .error (.http "Invalid date range")) ∧
    (∀ (env : Env) (s : ClientState) (p : SignupPayload) (v : AuthResponse),
       (signup env s p (.resolve (invalidDateResponse _ v))).1 = .error (.http "Invalid date range")) ∧
    (∀ (env : Env) (s : ClientState) (p : LoginPayload) (v : AuthResponse),
       (login env s p (.resolve (invalidDateResponse _ v))).1 = .error (.http "Invalid date range")) ∧
    (∀ (s : ClientState) (v : User),
       getCurrentUser s (.resolve (invalidDateResponse _ v)) = .error (.http "Invalid date range")) ∧
    (∀ (n : String) (v : LocationValidation),
       validateLocation n (.resolve (invalidDateResponse _ v)) = .error (.http "Invalid date range")) ∧
    (∀ (a b : String) (v : DateRangeValidation),
       validateDateRange a b (.resolve (invalidDateResponse _ v)) = .error (.http "Invalid date range")) ∧
    (∀ (s : ClientState) (p : CreateWeatherRequestPayload) (v : WeatherRequest),
       createWeatherRequest s p (.resolve (invalidDateResponse _ v)) = .error (.http "Invalid date range")) ∧
    (∀ (s : ClientState) (loc : Option String) (lim off : ℚ) (v : List WeatherRequestListItem),
       getWeatherRequests s loc lim off (.resolve (invalidDateResponse _ v)) = .error (.http "Invalid date range")) ∧
    (∀ (s : ClientState) (i : ℚ) (v : WeatherRequest),
       getWeatherRequestById s i (.resolve (invalidDateResponse _ v)) = .error (.http "Invalid date range")) ∧
    (∀ (s : ClientState) (i : ℚ) (p : UpdateWeatherRequestPayload) (v : WeatherRequest),
       updateWeatherRequest s i p (.resolve (invalidDateResponse _ v)) = .error (.http "Invalid date range")) ∧
    (∀ (s : ClientState) (i : ℚ) (v : DeleteResponse),
       deleteWeatherRequest s i (.resolve (invalidDateResponse _ v)) = .error (.http "Invalid date range")) := by
  refine ⟨?_, ?_, ?_, ?_, ?_, ?_, ?_, ?_, ?_, ?_, ?_, ?_, ?_, ?_, ?_, ?_, ?_, ?_, ?_⟩
  · intro α r v m h1 h2 h3 h4
    simp [handleResponse, h1, h2, messageOrDefault, h3, h4]
  · intro α r v h1 h2 h3
    rcases h3 with h3 | h3 <;> simp [handleResponse, h1, h2, messageOrDefault, h3]
  · intro α r e h
    by_cases hok : r.ok <;> simp [handleResponse, hok, h]
  · intro q v; rfl
  · intro lat lon v; rfl
  · intro lat lon days v; rfl
  · intro lat lon hours v; rfl
  · intro q days v; rfl
  · intro lat lon days v w; rfl
  · intro env s p v; rfl
  · intro env s p v; rfl
  · intro s v; rfl
  · intro n v; rfl
  · intro a b v; rfl
  · intro s p v; rfl
  · intro s loc lim off v; rfl
  · intro s i v; rfl
  · intro s i p v; rfl
  · intro s i v; rfl

/-- C2 witness: the first conjunct applied at a concrete non-2xx response
carrying `message = "Invalid date range"`. -/
theorem c2_error_normalization_witness :
    handleResponse (⟨false, .ok ⟨(), some "Invalid date range"⟩⟩ : HttpResponse Unit) =
      .error (.http "Invalid date range") :=
  c2_error_normalization.1 Unit ⟨false, .ok ⟨(), some "Invalid date range"⟩⟩
    ⟨(), some "Invalid date range"⟩ "Invalid date range" rfl rfl rfl (by decide)

/-- C3: `getWeatherByCoordinates` joins its two legs all-or-nothing — if the
current-weather leg fails the whole call fails with that error whatever the
forecast leg does, if the forecast leg fails the whole call fails with that
error, and only when both succeed does it return `{current, forecast}` with
`forecast` taken from the forecast leg's `forecast` field. The `Except`
result type carries no state on the error side: no partial result exists. -/
theorem c3_getWeatherByCoordinates_all_or_nothing :
    (∀ (lat lon days : ℚ) (netC : NetResult CurrentWeather)
       (netF : NetResult ForecastResponse) (e : ApiErr),
       getCurrentWeather lat lon netC = .error e →
       getWeatherByCoordinates lat lon days netC netF = .error e) ∧
    (∀ (lat lon days : ℚ) (netC : NetResult CurrentWeather)
       (netF : NetResult ForecastResponse) (c : CurrentWeather) (e : ApiErr),
       getCurrentWeather lat lon netC = .ok c →
       getForecast lat lon days netF = .error e →
       getWeatherByCoordinates lat lon days netC netF = .error e) ∧
    (∀ (lat lon days : ℚ) (netC : NetResult CurrentWeather)
       (netF : NetResult ForecastResponse) (c : CurrentWeather) (fd : ForecastResponse),
       getCurrentWeather lat lon netC = .ok c →
       getForecast lat lon days netF = .ok fd →
       getWeatherByCoordinates lat lon days netC netF = .ok ⟨c, fd.forecast⟩) := by
  refine ⟨?_, ?_, ?_⟩
  · intro lat lon days netC netF e h
    simp [getWeatherByCoordinates, h]
  · intro lat lon days netC netF c e h1 h2
    simp [getWeatherByCoordinates, h1, h2]
  · intro lat lon days netC netF c fd h1 h2
    simp [getWeatherByCoordinates, h1, h2]

/-- C3 witness: a rejected current-weather leg fails the combined call even
though the forecast leg succeeds. -/
theorem c3_getWeatherByCoordinates_witness :
    getWeatherByCoordinates 0 0 7 (.reject "ECONNREFUSED") (.resolve forecastOkResponse) =
      .error (.network "ECONNREFUSED") :=
  c3_getWeatherByCoordinates_all_or_nothing.1 0 0 7 (.reject "ECONNREFUSED")
    (.resolve forecastOkResponse) (.network "ECONNREFUSED") rfl

/-- C4: the spec requires the empty-weather_data statistics to read "not
available", but the Markdown export divides the (empty) sums by the zero day
count — JS `0 / 0` is `NaN` and `NaN.toFixed(1)` is `"NaN"` — so all three
mean statistics render as `NaN`; the CSV export contains no statistics
section at all (no `NaN`, but also nothing reported as not available). -/
theorem c4_empty_weather_data_statistics_render_nan :
    strHasSub "**Average Max Temperature:** NaN°C" (exportAsMarkdownText "now" emptyRequest) = true ∧
    strHasSub "**Average Min Temperature:** NaN°C" (exportAsMarkdownText "now" emptyRequest) = true ∧
    strHasSub "**Average Wind Speed:** NaN" (exportAsMarkdownText "now" emptyRequest) = true ∧
    strHasSub "not available" (exportAsMarkdownText "now" emptyRequest) = false ∧
    strHasSub "NaN" (exportAsCSVText emptyRequest) = false ∧
    strHasSub "Average" (exportAsCSVText emptyRequest) = false := by
  refine ⟨by decide, by decide, by decide, by decide, by decide, by decide⟩

/-- C5 counterexample: the claim quantifies over every token T and asserts
the storage key is written for non-null T, memory and storage agreeing. At
T = `""` (non-null) the JS truthiness test `if (token)` takes the removal
branch: the in-memory token becomes `""` while the storage key is removed,
so storage does not hold T and the two disagree. -/
theorem c5_counterexample_empty_string_token :
    getToken (setToken envWindow emptyClient (some "")) = some "" ∧
    (setToken envWindow emptyClient (some "")).storage = none ∧
    (setToken envWindow emptyClient (some "")).storage ≠
      getToken (setToken envWindow emptyClient (some "")) ∧
    isAuthenticated (setToken envWindow emptyClient (some "")) = true := by
  refine ⟨rfl, rfl, by decide, rfl⟩

/-- C5 (amended): after `setToken(T)`, `getToken()` returns T for every T;
with `window` present the storage key is written for every truthy (non-null,
non-empty) T and removed for null or empty T — so memory and storage agree
except at T = `""`; after `setToken(null)`, `isAuthenticated()` is false;
and `isAuthenticated()` equals `token !== null`, a purely local check (its
signature takes no network oracle). -/
theorem c5_setToken_getToken_amended :
    ∀ (env : Env) (s : ClientState) (t : Option String),
      env.hasWindow = true →
      (getToken (setToken env s t) = t ∧
       (∀ tok, t = some tok → tok ≠ "" → (setToken env s t).storage = some tok) ∧
       ((t = none ∨ t = some "") → (setToken env s t).storage = none) ∧
       isAuthenticated (setToken env s none) = false ∧
       (isAuthenticated s = true ↔ s.token ≠ none)) := by
  intro env s t h
  refine ⟨?_, ?_, ?_, ?_, ?_⟩
  · cases t with
    | none => simp [setToken, getToken, h]
    | some tok => by_cases htok : tok = "" <;> simp [setToken, getToken, h, htok]
  · intro tok ht htok
    subst ht
    simp [setToken, h, htok]
  · intro ht
    rcases ht with h1 | h1 <;> subst h1 <;> simp [setToken, h]
  · simp [setToken, isAuthenticated, h]
  · simp [isAuthenticated]

/-- C5 witness: the amended theorem at a concrete truthy token. -/
theorem c5_setToken_getToken_witness :
    getToken (setToken envWindow emptyClient (some "tok")) = some "tok" ∧
    (setToken envWindow emptyClient (some "tok")).storage = some "tok" :=
  ⟨(c5_setToken_getToken_amended envWindow emptyClient (some "tok") rfl).1,
   (c5_setToken_getToken_amended envWindow emptyClient (some "tok") rfl).2.1 "tok" rfl
     (by decide)⟩

/-- C6: when the handled response succeeds, `signup`/`login` return the full
`{token, user}` response and the resulting client state is exactly
`setToken` applied with the response's token (the store happens before the
method returns — the returned state already contains it); on any failure the
state is returned untouched. -/
theorem c6_signup_login_store_token :
    (∀ (env : Env) (s : ClientState) (p : SignupPayload) (r : HttpResponse AuthResponse)
       (data : AuthResponse), handleResponse r = .ok data →
       signup env s p (.resolve r) = (.ok data, setToken env s (some data.token))) ∧
    (∀ (env : Env) (s : ClientState) (p : LoginPayload) (r : HttpResponse AuthResponse)
       (data : AuthResponse), handleResponse r = .ok data →
       login env s p (.resolve r) = (.ok data, setToken env s (some data.token))) ∧
    (∀ (env : Env) (s : ClientState) (p : SignupPayload) (net : NetResult AuthResponse)
       (e : ApiErr), (signup env s p net).1 = .error e → (signup env s p net).2 = s) ∧
    (∀ (env : Env) (s : ClientState) (p : LoginPayload) (net : NetResult AuthResponse)
       (e : ApiErr), (login env s p net).1 = .error e → (login env s p net).2 = s) := by
  refine ⟨?_, ?_, ?_, ?_⟩
  · intro env s p r data hr
    simp [signup, fetchHandled, hr]
  · intro env s p r data hr
    simp [login, fetchHandled, hr]
  · intro env s p net e hfail
    cases hf : fetchHandled net with
    | error e2 => simp [signup, hf]
    | ok data => simp [signup, hf] at hfail
  · intro env s p net e hfail
    cases hf : fetchHandled net with
    | error e2 => simp [login, hf]
    | ok data => simp [login, hf] at hfail

/-- C6 witness: a concrete successful signup stores the returned token. -/
theorem c6_signup_login_store_token_witness :
    signup envWindow emptyClient sampleSignup (.resolve authOkResponse) =
      (.ok sampleAuth, setToken envWindow emptyClient (some "tok42")) :=
  c6_signup_login_store_token.1 envWindow emptyClient sampleSignup authOkResponse
    sampleAuth rfl

/-- C7: `escapeXml` chains the five global substitutions ampersand-first,
which makes it equal to the single-pass escape that maps each metacharacter
to its entity exactly once — entities introduced by later substitutions are
never re-escaped. In particular `A & B <C>` escapes to
`A &amp; B &lt;C&gt;`, the XML export of a record with those notes contains
`<notes>A &amp; B &lt;C&gt;</notes>`, and its output nowhere contains the
double-escape `&amp;amp;`. -/
theorem c7_escapeXml_order_one_pass :
    (∀ s : String, escapeXml s = String.mk (s.data.flatMap escChar)) ∧
    escapeXml "A & B <C>" = "A &amp; B &lt;C&gt;" ∧
    strHasSub "<notes>A &amp; B &lt;C&gt;</notes>" (exportAsXMLText notesRequest) = true ∧
    strHasSub "&amp;amp;" (exportAsXMLText notesRequest) = false := by
  refine ⟨?_, by decide, by decide, by decide⟩
  intro s
  exact congrArg String.mk (escapeXml_data s.data)

/-- C8 counterexample: the claim asserts the CSV export carries the four
aggregate statistics; the CSV text for the given request contains no
statistics at all — none of the claimed rendered values `21.0`, `11.0`,
`6.0` nor any `Average` line occurs in it (the CSV format is metadata
lines, one header row and one row per day only). -/
theorem c8_csv_has_no_statistics :
    strHasSub "21.0" (exportAsCSVText statsRequest) = false ∧
    strHasSub "11.0" (exportAsCSVText statsRequest) = false ∧
    strHasSub "6.0" (exportAsCSVText statsRequest) = false ∧
    strHasSub "Average" (exportAsCSVText statsRequest) = false := by
  refine ⟨by decide, by decide, by decide, by decide⟩

/-- C8 (amended): for the WeatherRequest with weather_data =
`[{temperature_max:20, temperature_min:10, precipitation:0, wind_speed_max:5},
  {temperature_max:22, temperature_min:12, precipitation:2, wind_speed_max:7}]`
the *Markdown* export's statistics are mean max temperature 21.0, mean min
temperature 11.0, total precipitation 2.0 and mean wind speed 6.0, each
rendered to one decimal place; the CSV export contains no statistics
section. -/
theorem c8_markdown_statistics :
    strHasSub "**Average Max Temperature:** 21.0°C" (exportAsMarkdownText "now" statsRequest) = true ∧
    strHasSub "**Average Min Temperature:** 11.0°C" (exportAsMarkdownText "now" statsRequest) = true ∧
    strHasSub "**Total Precipitation:** 2.0mm" (exportAsMarkdownText "now" statsRequest) = true ∧
    strHasSub "**Average Wind Speed:** 6.0km/h" (exportAsMarkdownText "now" statsRequest) = true := by
  refine ⟨by decide, by decide, by decide, by decide⟩

/-- C9: `formatCoordinates` is the pure string built from the absolute
values rendered to 4 decimal places with hemisphere letters (N for
`lat >= 0` else S, E for `lon >= 0` else W), and the two concrete examples
of the spec hold exactly. -/
theorem c9_formatCoordinates :
    (∀ lat lon : ℚ, formatCoordinates lat lon =
       toFixedQ 4 |lat| ++ "°" ++ (if 0 ≤ lat then "N" else "S") ++ ", " ++
       toFixedQ 4 |lon| ++ "°" ++ (if 0 ≤ lon then "E" else "W")) ∧
    formatCoordinates (Rat.divInt 407128 10000) (Rat.divInt (-740060) 10000) =
      "40.7128°N, 74.0060°W" ∧
    formatCoordinates (Rat.divInt (-338688) 10000) (Rat.divInt 1512093 10000) =
      "33.8688°S, 151.2093°E" := by
  refine ⟨?_, by decide, by decide⟩
  intro lat lon
  simp [formatCoordinates, qAbs_eq_abs, Rat.num_nonneg]

/-- C10: while a token is present, `logout` never inspects the HTTP status of
its response. When the token is truthy the request is issued, and for every
resolved response (any `ok` flag, any body, parseable or not) logout
completes normally with the token cleared — the result is literally
independent of the response, which is never passed to `handleResponse`. When
the present token is the falsy `""`, `if (this.token)` skips the fetch
entirely, so no response exists to inspect and logout still completes with
the token cleared, whatever the network would have done. -/
theorem c10_logout_ignores_response_status :
    (∀ (env : Env) (s : ClientState) (t : String) (r : HttpResponse Unit),
       s.token = some t → t ≠ "" →
       logout env s (.resolve r) =
         (.ok (), setToken env s none, some ⟨"POST", "/auth/logout", getAuthHeaders s⟩)) ∧
    (∀ (env : Env) (s : ClientState) (net : NetResult Unit),
       s.token = some "" →
       logout env s net = (.ok (), setToken env s none, none)) := by
  refine ⟨?_, ?_⟩
  · intro env s t r h ht
    simp [logout, h, ht]
  · intro env s net h
    simp [logout, h]

/-- C10 witness: a non-2xx response with an unparseable body still lets
logout complete and clear the token. -/
theorem c10_logout_ignores_response_status_witness :
    logout envWindow authedClient (.resolve ⟨false, .error "unparseable"⟩) =
      (.ok (), setToken envWindow authedClient none,
        some ⟨"POST", "/auth/logout", getAuthHeaders authedClient⟩) :=
  c10_logout_ignores_response_status.1 envWindow authedClient "tok123"
    ⟨false, .error "unparseable"⟩ rfl (by decide)

end WeatherApp
